import Mathlib

/-!
Verification of the bitbake ClearCase fetcher
(`bitbake/lib/bb/fetch2/clearcase.py`).

Strings are modelled as `List Char`; Python string operations used by the
fetcher (`replace` with a one-character pattern, the `in` substring test,
`split` on the two-character escape sequence backslash-n, `%`-formatting,
`os.path.join`) are given explicit executable definitions below.
-/

abbrev Str := List Char

/-- Model of Python `s.replace(old, new)` for a one-character `old`:
every occurrence of the character `old` is replaced by the string `new`. -/
def pyReplace (old : Char) (new : Str) (s : Str) : Str :=
  s.flatMap (fun c => if c = old then new else [c])

/-- `startsWithSub pre s`: does `s` start with `pre`?  (Python slicing
comparison used to model the substring test.) -/
def startsWithSub : Str → Str → Bool
  | [], _ => true
  | _ :: _, [] => false
  | a :: as, b :: bs => a = b && startsWithSub as bs

/-- Model of Python `needle in hay` on strings: `needle` occurs as a
contiguous substring of `hay`. -/
def containsSub (needle : Str) : Str → Bool
  | [] => needle.isEmpty
  | c :: rest => startsWithSub needle (c :: rest) || containsSub needle rest

/-- Model of `os.path.join(a, b)` for the two-argument POSIX case:
an absolute `b` wins; otherwise `a` and `b` are joined with a single
separator unless `a` is empty or already ends with one. -/
def osPathJoin (a b : Str) : Str :=
  if b.head? = some '/' then b
  else if a = [] then b
  else if a.getLast? = some '/' then a ++ b
  else a ++ ['/'] ++ b

/-- Model of Python `s.split("\\n")` (split on the two-character escape
sequence backslash-n), as the pair (first piece, remaining pieces). -/
def splitEscNCore : Str → Str × List Str
  | [] => ([], [])
  | '\\' :: 'n' :: rest =>
      let p := splitEscNCore rest
      ([], p.1 :: p.2)
  | c :: rest =>
      let p := splitEscNCore rest
      (c :: p.1, p.2)

/-- Python `s.split("\\n")` as a list of pieces. -/
def splitEscN (s : Str) : List Str :=
  ((splitEscNCore s).1 :: (splitEscNCore s).2)

/-- Replacement of every two-character escape sequence backslash-n by a
real newline character.  Used only on the specification side, to state
what line-ending normalization means. -/
def replaceEscN : Str → Str
  | [] => []
  | '\\' :: 'n' :: rest => '\n' :: replaceEscN rest
  | c :: rest => c :: replaceEscN rest

/-- Specification-side definition, following the spec's words for the
custom config spec: the override text emitted verbatim with line endings
normalized, i.e. every escaped line break decoded to a real newline and a
terminating newline appended to the last line. -/
def specNormalizedOverride (o : Str) : Str :=
  replaceEscN o ++ ['\n']

/-- Errors the fetcher's code paths can raise.  `nameError` models a
Python `NameError` on an identifier that is not bound in the module
(`clearcase.py` imports only `FetchMethod`, `FetchError`, `runfetchcmd`
and `logger` from `bb.fetch2`, and the modules `os`, `sys`, `shutil`,
`bb`); `parameterError` and `missingParameterError` model the typed
errors of `bb.fetch2` that the raise statements name; `fetchError` models
`FetchError`; `networkError` models the error raised by
`bb.fetch2.check_network_access`. -/
inductive PyError where
  | nameError (missing : Str)
  | parameterError (msg url : Str)
  | missingParameterError (param msg : Str)
  | fetchError (msg : Str)
  | networkError (msg : Str)
deriving DecidableEq, Repr

/-- Discriminator for the typed error `bb.fetch2.ParameterError`. -/
def isParameterError : PyError → Bool
  | .parameterError _ _ => true
  | _ => false

/-- Discriminator for the typed error `bb.fetch2.MissingParameterError`. -/
def isMissingParameterError : PyError → Bool
  | .missingParameterError _ _ => true
  | _ => false

/-- The datastore values `clearcase.py` reads via `d.getVar`. -/
structure Datastore where
  fetchcmd_ccrc : Option Str
  srcrev : Str
  ccase_custom_config_spec : Option Str
  datetime : Str
  dl_dir : Str
deriving DecidableEq, Repr

/-- The URL parameters `urldata_init` reads from `ud.parm`. -/
structure UrlParm where
  protocol : Option Str
  vob : Option Str
  module : Option Str
deriving DecidableEq, Repr

/-- The fields `urldata_init` stores on the url data object.
`localpath` is modelled from the spec: the generic fetch layer (outside
src/) assigns it the local archive path, which `urldata_init` has already
computed into `localfile` (line 134 joins `DL_DIR` onto it). -/
structure UrlData where
  host : Str
  path : Str
  url : Str
  proto : Str
  vob : Str
  module : Str
  basecmd : Str
  label : Str
  customspec : Option Str
  server : Str
  identifier : Str
  viewname : Str
  csname : Str
  ccasedir : Str
  viewdir : Str
  configspecfile : Str
  localfile : Str
  localpath : Str
deriving DecidableEq, Repr

/-- Default `FETCHCMD_ccrc` (line 98). -/
def defaultBasecmd : Str := "/usr/bin/env cleartool || rcleartool".toList

/-- The identifier computed on lines 108-110:
`"clearcase-%s%s-%s" % (vob.replace("/",""), module.replace("/","."),
label.replace("/","."))`. -/
def mkIdentifier (vob module label : Str) : Str :=
  "clearcase-".toList ++ pyReplace '/' [] vob ++ pyReplace '/' ['.'] module
    ++ ['-'] ++ pyReplace '/' ['.'] label

/-- `ClearCase.urldata_init` (lines 76-134).  The two error branches for a
bad protocol and for a missing vob raise `NameError`, because the names
`fetch2` (line 84) and `MissingParameterError` (line 91) are not bound in
the module; the `SRCREV == "INVALID"` branch raises `FetchError`, which is
imported.  `ud.type` is the literal `"ccrc"` (the only type `supports`
accepts). -/
def urldata_init (host path url : Str) (parm : UrlParm) (d : Datastore) :
    Except PyError UrlData :=
  let proto := (parm.protocol).getD "https".toList
  if proto ≠ "http".toList ∧ proto ≠ "https".toList then
    .error (.nameError "fetch2".toList)
  else
    match parm.vob with
    | none => .error (.nameError "MissingParameterError".toList)
    | some vob =>
      let module := (parm.module).getD []
      let basecmd := (d.fetchcmd_ccrc).getD defaultBasecmd
      if d.srcrev = "INVALID".toList then
        .error (.fetchError "Set a valid SRCREV for the clearcase fetcher in your recipe, e.g. SRCREV = \"/main/LATEST\" or any other label of your choice.".toList)
      else
        let label := d.srcrev
        let customspec := d.ccase_custom_config_spec
        let server := proto ++ "://".toList ++ host ++ path
        let identifier := mkIdentifier vob module label
        let viewname := identifier ++ "-view".toList ++ d.datetime
        let csname := identifier ++ "-config-spec".toList
        let ccasedir := osPathJoin d.dl_dir "ccrc".toList
        let localfile := osPathJoin d.dl_dir (identifier ++ ".tar.gz".toList)
        .ok { host := host, path := path, url := url, proto := proto,
              vob := vob, module := module, basecmd := basecmd,
              label := label, customspec := customspec, server := server,
              identifier := identifier, viewname := viewname,
              csname := csname, ccasedir := ccasedir,
              viewdir := osPathJoin ccasedir viewname,
              configspecfile := osPathJoin ccasedir csname,
              localfile := localfile, localpath := localfile }

/-- The `-server` option prepended for the remote client (line 144). -/
def serverOption (ud : UrlData) : Str := "-server ".toList ++ ud.server

/-- The remote-client test `"rcleartool" in ud.basecmd` (line 143). -/
def isRemoteClient (ud : UrlData) : Bool :=
  containsSub "rcleartool".toList ud.basecmd

/-- The `options` list built by `ClearCase._build_ccase_command`
(lines 136-164).  The Python code compares the verb with `is` on interned
string literals, which behaves as string equality for the literals the
call sites pass; it is modelled as equality. -/
def ccaseOptions (ud : UrlData) (command : Str) : Except PyError (List Str) :=
  let options := if isRemoteClient ud then [serverOption ud] else []
  if command = "mkview".toList then
    .ok (options
      ++ (if isRemoteClient ud then [] else ["-snapshot".toList])
      ++ ["-tag ".toList ++ ud.viewname, ud.viewdir])
  else if command = "rmview".toList then
    .ok (options ++ ["-force".toList, ud.viewdir])
  else if command = "setcs".toList then
    .ok (options ++ ["-overwrite".toList, ud.configspecfile])
  else
    .error (.fetchError ("Invalid ccase command ".toList ++ command))

/-- `ClearCase._build_ccase_command` (lines 136-168): the final command
string `"%s %s" % ("%s %s" % (basecmd, command), " ".join(options))`. -/
def build_ccase_command (ud : UrlData) (command : Str) : Except PyError Str :=
  match ccaseOptions ud command with
  | .error e => .error e
  | .ok options =>
      .ok (ud.basecmd ++ [' '] ++ command ++ [' ']
        ++ List.intercalate [' '] options)

/-- The loop on lines 177-178: `for line in custom.split("\\n"):
config_spec += line + "\n"`. -/
def customSpecContent (o : Str) : Str :=
  (splitEscN o).foldl (fun acc line => acc ++ line ++ ['\n']) []

/-- `ClearCase._write_configspec` (lines 170-188), modelled as the content
written to `ud.configspecfile`. -/
def write_configspec (ud : UrlData) (d : Datastore) : Str :=
  match d.ccase_custom_config_spec with
  | some o => customSpecContent o
  | none =>
      "element * CHECKEDOUT\n".toList
      ++ "element * ".toList ++ ud.label ++ ['\n']
      ++ "load ".toList ++ ud.vob ++ ud.module ++ ['\n']

/-- The floating-sentinel condition tested on line 199:
`("LATEST" in ud.label) or (ud.customspec and "LATEST" in ud.customspec)`.
The truthiness test on `ud.customspec` is `false` for `None`; for a
string it is equivalent to the substring test alone, since
`"LATEST" in ""` is already false. -/
def latestCond (ud : UrlData) : Bool :=
  containsSub "LATEST".toList ud.label
    || (match ud.customspec with
        | none => false
        | some s => containsSub "LATEST".toList s)

/-- `ClearCase.need_update` (lines 198-204).  `fsExists` models
`os.path.exists`. -/
def need_update (ud : UrlData) (d : Datastore) (fsExists : Str → Bool) :
    UrlData × Bool :=
  if latestCond ud then
    ({ ud with identifier := ud.identifier ++ ['-'] ++ d.datetime }, true)
  else if fsExists ud.localpath then
    (ud, false)
  else
    (ud, true)

/-- Outcomes of the external effects `download` performs, in program
order: `bb.utils.mkdirhier`, the config spec file write,
`check_network_access` before `mkview`, `runfetchcmd` of `mkview`
(`some msg` models a raised `FetchError(msg)`), `check_network_access`
before `setcs`, `runfetchcmd` of `setcs`, `shutil.copyfile` of the config
spec into the view, and `runfetchcmd` of the tar packaging command. -/
structure DownloadEnv where
  mkdir : Option PyError
  writeSpec : Option PyError
  netMkview : Option PyError
  mkview : Option Str
  netSetcs : Option PyError
  setcs : Option Str
  copySpec : Option PyError
  tar : Option Str
deriving DecidableEq, Repr

/-- The remediation hint appended on line 225. -/
def loginHint : Str :=
  "Call `rcleartool login` in your console to authenticate to the clearcase server before running bitbake.".toList

/-- `ClearCase.download` (lines 212-244).  The first component is the
raised error (or `ok`); the second records whether `self.clean` (line
244) was invoked before control returned.  The `except FetchError`
handler on lines 223-227 rewraps an `mkview` failure whose message
contains `"CRCLI2008E"` as `FetchError("%s\n%s\n" % (e.msg, hint))` and
re-raises every other `FetchError` unchanged. -/
def download (ud : UrlData) (env : DownloadEnv) :
    Except PyError Unit × Bool :=
  match env.mkdir with
  | some e => (.error e, false)
  | none =>
  match env.writeSpec with
  | some e => (.error e, false)
  | none =>
  match build_ccase_command ud "mkview".toList with
  | .error e => (.error e, false)
  | .ok _ =>
  match env.netMkview with
  | some e => (.error e, false)
  | none =>
  match env.mkview with
  | some msg =>
      if containsSub "CRCLI2008E".toList msg then
        (.error (.fetchError (msg ++ ['\n'] ++ loginHint ++ ['\n'])), false)
      else
        (.error (.fetchError msg), false)
  | none =>
  match build_ccase_command ud "setcs".toList with
  | .error e => (.error e, false)
  | .ok _ =>
  match env.netSetcs with
  | some e => (.error e, false)
  | none =>
  match env.setcs with
  | some msg => (.error (.fetchError msg), false)
  | none =>
  match env.copySpec with
  | some e => (.error e, false)
  | none =>
  match env.tar with
  | some msg => (.error (.fetchError msg), false)
  | none =>
  (.ok (), true)

/-- The filesystem, as existence of paths. -/
abbrev FileSys := Str → Bool

/-- Outcomes of the external effects `clean` performs:
`check_network_access` before `rmview`, and `runfetchcmd` of `rmview`
(`some msg` models a raised `FetchError(msg)`). -/
structure CleanEnv where
  netRmview : Option PyError
  rmview : Option Str
deriving DecidableEq, Repr

/-- Modelled from the spec: `bb.utils.remove` (outside src/) deletes the
path if present; an already-absent path is treated as successful cleanup,
never an error. -/
def bbUtilsRemove (fs : FileSys) (p : Str) : FileSys :=
  fun q => if q = p then false else fs q

/-- `ClearCase._remove_view` (lines 190-196): runs `rmview` only when
`ud.viewdir` exists.  The effect of a successful `rmview -force` is
modelled from the spec (the external client removes the view directory). -/
def remove_view (ud : UrlData) (env : CleanEnv) (fs : FileSys) :
    Except PyError FileSys :=
  if fs ud.viewdir then
    match build_ccase_command ud "rmview".toList with
    | .error e => .error e
    | .ok _ =>
    match env.netRmview with
    | some e => .error e
    | none =>
    match env.rmview with
    | some msg => .error (.fetchError msg)
    | none => .ok (fun p => if p = ud.viewdir then false else fs p)
  else .ok fs

/-- `ClearCase.clean` (lines 246-248). -/
def clean (ud : UrlData) (env : CleanEnv) (fs : FileSys) :
    Except PyError FileSys :=
  match remove_view ud env fs with
  | .error e => .error e
  | .ok fs2 => .ok (bbUtilsRemove fs2 ud.configspecfile)

/-- Boolean success test for a `clean` outcome. -/
def exceptOk : Except PyError FileSys → Bool
  | .ok _ => true
  | .error _ => false

/-! Concrete sample data used by closed theorems and witnesses: the
descriptor of the spec's end-to-end example (vob="/vob1", module="/mod1",
label="rel1"), plus variants with a floating label, a local-only client
and a custom config spec. -/

/-- Sample URL string. -/
def sampleUrl : Str :=
  "ccrc://cc.example.org/ccrc;vob=/vob1;module=/mod1".toList

/-- Sample datastore: SRCREV="rel1", no custom spec, DL_DIR="/dl". -/
def sampleD : Datastore :=
  { fetchcmd_ccrc := none, srcrev := "rel1".toList,
    ccase_custom_config_spec := none, datetime := "20240101120000".toList,
    dl_dir := "/dl".toList }

/-- Sample URL parameters: protocol=http, vob="/vob1", module="/mod1". -/
def sampleParm : UrlParm :=
  { protocol := some "http".toList, vob := some "/vob1".toList,
    module := some "/mod1".toList }

/-- Fallback url data record (all fields empty). -/
def emptyUD : UrlData :=
  ⟨[], [], [], [], [], [], [], [], none, [], [], [], [], [], [], [], [], []⟩

/-- The url data produced by `urldata_init` on the sample descriptor. -/
def sampleUD : UrlData :=
  match urldata_init "cc.example.org".toList "/ccrc".toList sampleUrl
      sampleParm sampleD with
  | .ok ud => ud
  | .error _ => emptyUD

/-- Sample datastore with the floating label SRCREV="/main/LATEST". -/
def sampleDLatest : Datastore :=
  { sampleD with srcrev := "/main/LATEST".toList }

/-- Url data for the floating-label sample. -/
def sampleUDLatest : UrlData :=
  match urldata_init "cc.example.org".toList "/ccrc".toList sampleUrl
      sampleParm sampleDLatest with
  | .ok ud => ud
  | .error _ => emptyUD

/-- Sample datastore selecting the local client (FETCHCMD_ccrc without
"rcleartool"). -/
def sampleDLocal : Datastore :=
  { sampleD with fetchcmd_ccrc := some "cleartool".toList }

/-- Url data for the local-client sample. -/
def sampleUDLocal : UrlData :=
  match urldata_init "cc.example.org".toList "/ccrc".toList sampleUrl
      sampleParm sampleDLocal with
  | .ok ud => ud
  | .error _ => emptyUD

/-- Sample datastore with a custom config spec override. -/
def sampleDCustom : Datastore :=
  { sampleD with
    ccase_custom_config_spec :=
      some "element * CHECKEDOUT\\nelement * /main/rel2".toList }

/-- Download environment in which every external step succeeds. -/
def okEnv : DownloadEnv :=
  { mkdir := none, writeSpec := none, netMkview := none, mkview := none,
    netSetcs := none, setcs := none, copySpec := none, tar := none }

/-- Download environment in which the `mkview` command fails with a
generic (non-authentication) error. -/
def mkviewFailEnv : DownloadEnv :=
  { okEnv with mkview := some "mkview failed".toList }

/-- Download environment in which the `mkview` command fails with the
authentication-failure signature in its message. -/
def authFailEnv : DownloadEnv :=
  { okEnv with mkview := some "error CRCLI2008E: not logged in".toList }

/-- Clean environment in which the external steps succeed. -/
def cleanOkEnv : CleanEnv := { netRmview := none, rmview := none }

/-- Clean environment in which the `rmview` command would fail. -/
def cleanFailEnv : CleanEnv :=
  { netRmview := none, rmview := some "rmview failed".toList }

/-! Helper lemmas about the string model. -/

theorem startsWithSub_self_append (l m : Str) :
    startsWithSub l (l ++ m) = true := by
  induction l with
  | nil => rfl
  | cons c cs ih => simp [startsWithSub, ih]

theorem containsSub_self_append (l m : Str) :
    containsSub l (l ++ m) = true := by
  cases l with
  | nil =>
      cases m with
      | nil => rfl
      | cons c cs => simp [containsSub, startsWithSub]
  | cons c cs => simp [containsSub, startsWithSub, startsWithSub_self_append]

theorem containsSub_cons (n : Str) (c : Char) (h : Str)
    (hh : containsSub n h = true) : containsSub n (c :: h) = true := by
  simp [containsSub, hh]

theorem containsSub_append_left (n pre h : Str)
    (hh : containsSub n h = true) : containsSub n (pre ++ h) = true := by
  induction pre with
  | nil => exact hh
  | cons c cs ih => simpa [containsSub] using Or.inr ih

theorem not_mem_pyReplace {c : Char} (new s : Str) (hnew : c ∉ new) :
    c ∉ pyReplace c new s := by
  intro h
  simp only [pyReplace] at h
  rcases List.mem_flatMap.1 h with ⟨a, _, ha⟩
  by_cases hac : a = c
  · rw [if_pos hac] at ha; exact hnew ha
  · rw [if_neg hac] at ha
    simp only [List.mem_singleton] at ha
    exact hac ha.symm

theorem slash_not_mem_mkIdentifier (vob module label : Str) :
    '/' ∉ mkIdentifier vob module label := by
  intro h
  simp only [mkIdentifier, List.append_assoc, List.mem_append] at h
  rcases h with h | h | h | h | h
  · exact absurd h (by decide)
  · exact not_mem_pyReplace [] vob (by simp) h
  · exact not_mem_pyReplace ['.'] module (by decide) h
  · exact absurd h (by decide)
  · exact not_mem_pyReplace ['.'] label (by decide) h

theorem osPathJoin_eq_or_slash (a b : Str) :
    osPathJoin a b = b ∨ '/' ∈ osPathJoin a b := by
  unfold osPathJoin
  split
  · exact Or.inl rfl
  · split
    · exact Or.inl rfl
    · split
      · rename_i h1 h2 h3
        right
        have hmem : '/' ∈ a := by
          rcases List.mem_getLast?_eq_getLast (l := a) (x := '/') h3 with
            ⟨hne, heq⟩
          exact heq ▸ List.getLast_mem hne
        exact List.mem_append_left b hmem
      · right; simp

/-- Characterization of the fields of a url data record accepted by
`urldata_init`. -/
theorem urldata_init_fields {host path url : Str} {parm : UrlParm}
    {d : Datastore} {ud : UrlData}
    (h : urldata_init host path url parm d = .ok ud) :
    ∃ vob, parm.vob = some vob ∧
      ud.identifier = mkIdentifier vob (parm.module.getD []) d.srcrev ∧
      ud.viewname = ud.identifier ++ "-view".toList ++ d.datetime ∧
      ud.viewdir
        = osPathJoin (osPathJoin d.dl_dir "ccrc".toList) ud.viewname ∧
      ud.configspecfile
        = osPathJoin (osPathJoin d.dl_dir "ccrc".toList)
            (ud.identifier ++ "-config-spec".toList) ∧
      ud.localfile = osPathJoin d.dl_dir (ud.identifier ++ ".tar.gz".toList) ∧
      ud.label = d.srcrev ∧
      ud.customspec = d.ccase_custom_config_spec ∧
      ud.basecmd = (d.fetchcmd_ccrc).getD defaultBasecmd := by
  simp only [urldata_init] at h
  split at h
  · exact absurd h (by simp)
  · split at h
    · exact absurd h (by simp)
    · rename_i vob hv
      split at h
      · exact absurd h (by simp)
      · simp only [Except.ok.injEq] at h
        subst h
        exact ⟨vob, hv, rfl, rfl, rfl, rfl, rfl, rfl, rfl, rfl⟩

theorem foldl_append_nl (ls : List Str) (init : Str) :
    ls.foldl (fun acc line => acc ++ line ++ ['\n']) init
      = init ++ (ls.map (fun l => l ++ ['\n'])).flatten := by
  induction ls generalizing init with
  | nil => simp
  | cons a as ih => rw [List.foldl_cons, ih]; simp [List.append_assoc]

theorem splitEscNCore_join (s : Str) :
    (splitEscNCore s).1 ++ ['\n']
      ++ ((splitEscNCore s).2.map (fun l => l ++ ['\n'])).flatten
      = replaceEscN s ++ ['\n'] := by
  induction s using splitEscNCore.induct with
  | case1 => simp [splitEscNCore, replaceEscN]
  | case2 rest ih => simp [splitEscNCore, replaceEscN]; simpa using ih
  | case3 c rest h1 ih =>
      rw [splitEscNCore.eq_3 c rest h1, replaceEscN.eq_3 c rest h1]
      simpa using ih

/-- The split-then-append loop of `_write_configspec` computes exactly
the normalized override. -/
theorem customSpecContent_eq (o : Str) :
    customSpecContent o = specNormalizedOverride o := by
  unfold customSpecContent specNormalizedOverride splitEscN
  rw [foldl_append_nl]
  rw [← splitEscNCore_join o]
  simp [List.append_assoc]

/-- A view directory produced by `urldata_init` is never the literal
"-snapshot": it either contains a path separator or starts with the
identifier's leading character. -/
theorem viewdir_ne_snapshot {host path url : Str} {parm : UrlParm}
    {d : Datastore} {ud : UrlData}
    (h : urldata_init host path url parm d = .ok ud) :
    ud.viewdir ≠ "-snapshot".toList := by
  obtain ⟨vob, hv, hid, hvn, hvd, _⟩ := urldata_init_fields h
  intro heq
  rcases osPathJoin_eq_or_slash (osPathJoin d.dl_dir "ccrc".toList)
      ud.viewname with hcase | hcase
  · rw [hvd, hcase, hvn, hid] at heq
    simp [mkIdentifier, List.cons_append, List.append_assoc] at heq
  · rw [← hvd, heq] at hcase
    exact absurd hcase (by decide)

/-- Success of a `clean` call on a filesystem where the view directory is
already absent: `rmview` is skipped and removing the config spec file
cannot fail. -/
theorem clean_ok_of_absent (ud : UrlData) (env : CleanEnv) (fs : FileSys)
    (h : fs ud.viewdir = false) : exceptOk (clean ud env fs) = true := by
  unfold clean remove_view
  rw [h]
  simp [exceptOk]

/-! The claims. -/

/-- C1 counterexample: a `download` attempt whose `mkview` command fails
raises the error without invoking `clean` (the call on line 244 is only
reached after every step succeeded — there is no try/finally). -/
theorem c1_counterexample :
    (download sampleUD mkviewFailEnv).1
      = .error (.fetchError "mkview failed".toList)
    ∧ (download sampleUD mkviewFailEnv).2 = false :=
  ⟨rfl, rfl⟩

/-- C1 (amended): `clean` is invoked before `download` returns exactly
when every step (directory creation, config spec write, network checks,
mkview, setcs, config-spec copy, archiving) succeeds; on any failure the
error propagates without cleanup. -/
theorem c1_clean_iff_success (ud : UrlData) (env : DownloadEnv) :
    (download ud env).2 = true
      ↔ (env.mkdir = none ∧ env.writeSpec = none ∧ env.netMkview = none
        ∧ env.mkview = none ∧ env.netSetcs = none ∧ env.setcs = none
        ∧ env.copySpec = none ∧ env.tar = none) := by
  obtain ⟨m, w, nm, mk, ns, sc, cp, tr⟩ := env
  unfold download
  cases m <;> cases w <;> cases nm <;> cases mk <;> cases ns <;> cases sc
    <;> cases cp <;> cases tr <;>
    simp [build_ccase_command, ccaseOptions, apply_ite]

/-- C2 counterexample: for the sample descriptor (vob="/vob1",
module="/mod1", label="rel1") the computed identifier is not
"clearcase-vob1mod1-rel1" — the module's slash becomes a dot. -/
theorem c2_counterexample :
    urldata_init "cc.example.org".toList "/ccrc".toList sampleUrl
        sampleParm sampleD = .ok sampleUD
    ∧ sampleUD.identifier ≠ "clearcase-vob1mod1-rel1".toList :=
  ⟨rfl, by decide⟩

/-- C2 (amended): for vob="/vob1", module="/mod1", label="rel1" the
identifier is "clearcase-vob1.mod1-rel1" and the archive path is
DL_DIR/clearcase-vob1.mod1-rel1.tar.gz; for every input accepted by
`urldata_init` the identifier contains no path-separator character. -/
theorem c2_identifier_and_path :
    sampleUD.identifier = "clearcase-vob1.mod1-rel1".toList
    ∧ sampleUD.localfile = "/dl/clearcase-vob1.mod1-rel1.tar.gz".toList
    ∧ ∀ (host path url : Str) (parm : UrlParm) (d : Datastore)
        (ud : UrlData),
        urldata_init host path url parm d = .ok ud → '/' ∉ ud.identifier := by
  refine ⟨by decide, by decide, ?_⟩
  intro host path url parm d ud h
  obtain ⟨vob, _, hid, _⟩ := urldata_init_fields h
  rw [hid]
  exact slash_not_mem_mkIdentifier _ _ _

/-- Witness for C2's quantified part at the sample descriptor. -/
theorem c2_witness : '/' ∉ sampleUD.identifier :=
  c2_identifier_and_path.2.2 "cc.example.org".toList "/ccrc".toList
    sampleUrl sampleParm sampleD sampleUD rfl

/-- C3 (code bug): on an unsupported protocol or an absent vob parameter,
`urldata_init` raises `NameError` — the names `fetch2` (line 84) and
`MissingParameterError` (line 91) are not bound in `clearcase.py` — and
not the typed parameter errors the raise statements name. -/
theorem c3_unimported_error_names :
    urldata_init "cc.example.org".toList "/ccrc".toList sampleUrl
        { protocol := some "ftp".toList, vob := some "/vob1".toList,
          module := none } sampleD
      = .error (.nameError "fetch2".toList)
    ∧ urldata_init "cc.example.org".toList "/ccrc".toList sampleUrl
        { protocol := some "http".toList, vob := none, module := none }
        sampleD
      = .error (.nameError "MissingParameterError".toList)
    ∧ isParameterError (.nameError "fetch2".toList) = false
    ∧ isMissingParameterError (.nameError "MissingParameterError".toList)
        = false :=
  ⟨rfl, rfl, rfl, rfl⟩

/-- C4: when `need_update` finds the floating sentinel it appends the
timestamp to the identifier and leaves viewname, csname, configspecfile
and the archive path localfile unchanged. -/
theorem c4_need_update_frame (ud : UrlData) (d : Datastore)
    (fs : Str → Bool) (h : latestCond ud = true) :
    (need_update ud d fs).1.viewname = ud.viewname
    ∧ (need_update ud d fs).1.csname = ud.csname
    ∧ (need_update ud d fs).1.configspecfile = ud.configspecfile
    ∧ (need_update ud d fs).1.localfile = ud.localfile
    ∧ (need_update ud d fs).1.identifier
        = ud.identifier ++ ['-'] ++ d.datetime := by
  unfold need_update
  rw [if_pos h]
  exact ⟨rfl, rfl, rfl, rfl, rfl⟩

/-- Witness for C4 at the floating-label sample. -/
theorem c4_witness :
    (need_update sampleUDLatest sampleDLatest (fun _ => false)).1.viewname
        = sampleUDLatest.viewname
    ∧ (need_update sampleUDLatest sampleDLatest (fun _ => false)).1.csname
        = sampleUDLatest.csname
    ∧ (need_update sampleUDLatest sampleDLatest
          (fun _ => false)).1.configspecfile
        = sampleUDLatest.configspecfile
    ∧ (need_update sampleUDLatest sampleDLatest (fun _ => false)).1.localfile
        = sampleUDLatest.localfile
    ∧ (need_update sampleUDLatest sampleDLatest (fun _ => false)).1.identifier
        = sampleUDLatest.identifier ++ ['-'] ++ sampleDLatest.datetime :=
  c4_need_update_frame sampleUDLatest sampleDLatest (fun _ => false)
    (by decide)

/-- C5: when a custom config-spec override is set, the content written to
the config spec file equals the override text with line endings
normalized (escaped line breaks decoded, terminating newline appended),
and the content does not depend on the vob, module or label carried by
the url data. -/
theorem c5_custom_override_verbatim (ud : UrlData) (d : Datastore) (o : Str)
    (h : d.ccase_custom_config_spec = some o) :
    write_configspec ud d = specNormalizedOverride o
    ∧ ∀ ud2 : UrlData, write_configspec ud2 d = write_configspec ud d := by
  unfold write_configspec
  rw [h]
  exact ⟨customSpecContent_eq o, fun _ => rfl⟩

/-- Witness for C5 at the sample override. -/
theorem c5_witness :
    write_configspec sampleUD sampleDCustom
      = specNormalizedOverride
          "element * CHECKEDOUT\\nelement * /main/rel2".toList :=
  (c5_custom_override_verbatim sampleUD sampleDCustom
    "element * CHECKEDOUT\\nelement * /main/rel2".toList rfl).1

/-- C6: with no custom override, the config spec written for vob="/vob1",
module="/mod1", label="rel1" is exactly the three lines
"element * CHECKEDOUT\n", "element * rel1\n", "load /vob1/mod1\n". -/
theorem c6_default_configspec :
    write_configspec sampleUD sampleD
      = "element * CHECKEDOUT\nelement * rel1\nload /vob1/mod1\n".toList := by
  decide

/-- C7: with the floating sentinel in the label or the custom spec, two
successive `need_update` calls both return true and the identifier after
the second call differs from the identifier after the first. -/
theorem c7_latest_two_calls (ud : UrlData) (d : Datastore)
    (fs fs2 : Str → Bool) (h : latestCond ud = true) :
    (need_update ud d fs).2 = true
    ∧ (need_update (need_update ud d fs).1 d fs2).2 = true
    ∧ (need_update (need_update ud d fs).1 d fs2).1.identifier
        ≠ (need_update ud d fs).1.identifier := by
  have h1 : need_update ud d fs
      = ({ ud with identifier := ud.identifier ++ ['-'] ++ d.datetime },
          true) := by
    unfold need_update
    rw [if_pos h]
  have hfst : (need_update ud d fs).1
      = { ud with identifier := ud.identifier ++ ['-'] ++ d.datetime } := by
    rw [h1]
  have hcond1 : latestCond
      { ud with identifier := ud.identifier ++ ['-'] ++ d.datetime }
      = true := h
  have h2 : need_update
        { ud with identifier := ud.identifier ++ ['-'] ++ d.datetime } d fs2
      = ({ ud with identifier :=
            (ud.identifier ++ ['-'] ++ d.datetime) ++ ['-'] ++ d.datetime },
          true) := by
    unfold need_update
    rw [if_pos hcond1]
  refine ⟨by rw [h1], ?_, ?_⟩
  · rw [hfst, h2]
  · rw [hfst, h2]
    intro heq
    have hlen := congrArg List.length heq
    simp [List.length_append] at hlen

/-- Witness for C7 at the floating-label sample. -/
theorem c7_witness :
    (need_update sampleUDLatest sampleDLatest (fun _ => false)).2 = true
    ∧ (need_update (need_update sampleUDLatest sampleDLatest
          (fun _ => false)).1 sampleDLatest (fun _ => false)).2 = true
    ∧ (need_update (need_update sampleUDLatest sampleDLatest
          (fun _ => false)).1 sampleDLatest (fun _ => false)).1.identifier
        ≠ (need_update sampleUDLatest sampleDLatest
            (fun _ => false)).1.identifier :=
  c7_latest_two_calls sampleUDLatest sampleDLatest (fun _ => false)
    (fun _ => false) (by decide)

/-- C8: an `mkview` failure whose message carries the authentication
signature "CRCLI2008E" is re-raised as a `FetchError` whose message
contains both the original text and the `rcleartool login` remediation
hint; every other `mkview` `FetchError` propagates unchanged. -/
theorem c8_mkview_auth_rewrap (ud : UrlData) (env : DownloadEnv) (msg : Str)
    (h1 : env.mkdir = none) (h2 : env.writeSpec = none)
    (h3 : env.netMkview = none) (h4 : env.mkview = some msg) :
    (containsSub "CRCLI2008E".toList msg = true →
      (download ud env).1
          = .error (.fetchError (msg ++ ['\n'] ++ loginHint ++ ['\n']))
      ∧ containsSub msg (msg ++ ['\n'] ++ loginHint ++ ['\n']) = true
      ∧ containsSub loginHint (msg ++ ['\n'] ++ loginHint ++ ['\n']) = true)
    ∧ (containsSub "CRCLI2008E".toList msg = false →
      (download ud env).1 = .error (.fetchError msg)) := by
  have hdl : download ud env
      = (if containsSub "CRCLI2008E".toList msg then
          (.error (.fetchError (msg ++ ['\n'] ++ loginHint ++ ['\n'])),
            false)
        else (.error (.fetchError msg), false)) := by
    unfold download
    rw [h1, h2, h3, h4]
    simp [build_ccase_command, ccaseOptions]
  constructor
  · intro hc
    rw [hdl, if_pos (by exact hc)]
    refine ⟨rfl, ?_, ?_⟩
    · rw [List.append_assoc, List.append_assoc]
      exact containsSub_self_append msg _
    · rw [List.append_assoc]
      exact containsSub_append_left loginHint (msg ++ ['\n']) _
        (containsSub_self_append loginHint _)
  · intro hc
    rw [hdl, if_neg (by rw [hc]; exact Bool.false_ne_true)]

/-- Witness for C8 at a message carrying the signature, and at one
without it. -/
theorem c8_witness :
    (download sampleUD authFailEnv).1
      = .error (.fetchError ("error CRCLI2008E: not logged in".toList
          ++ ['\n'] ++ loginHint ++ ['\n']))
    ∧ containsSub loginHint ("error CRCLI2008E: not logged in".toList
        ++ ['\n'] ++ loginHint ++ ['\n']) = true
    ∧ (download sampleUD mkviewFailEnv).1
      = .error (.fetchError "mkview failed".toList) :=
  ⟨((c8_mkview_auth_rewrap sampleUD authFailEnv
      "error CRCLI2008E: not logged in".toList rfl rfl rfl rfl).1
        (by decide)).1,
    ((c8_mkview_auth_rewrap sampleUD authFailEnv
      "error CRCLI2008E: not logged in".toList rfl rfl rfl rfl).1
        (by decide)).2.2,
    (c8_mkview_auth_rewrap sampleUD mkviewFailEnv
      "mkview failed".toList rfl rfl rfl rfl).2 (by decide)⟩

/-- C9: for each supported verb the remote client's options begin with
the server option, before all verb-specific options; the local `mkview`
options carry the snapshot flag before the tag option; the remote
`mkview` options do not contain the snapshot flag. -/
theorem c9_option_order (host path url : Str) (parm : UrlParm)
    (d : Datastore) (ud : UrlData)
    (h : urldata_init host path url parm d = .ok ud) :
    (isRemoteClient ud = true →
      ccaseOptions ud "mkview".toList
          = .ok [serverOption ud, "-tag ".toList ++ ud.viewname, ud.viewdir]
      ∧ ccaseOptions ud "rmview".toList
          = .ok [serverOption ud, "-force".toList, ud.viewdir]
      ∧ ccaseOptions ud "setcs".toList
          = .ok [serverOption ud, "-overwrite".toList, ud.configspecfile]
      ∧ "-snapshot".toList
          ∉ [serverOption ud, "-tag ".toList ++ ud.viewname, ud.viewdir])
    ∧ (isRemoteClient ud = false →
      ccaseOptions ud "mkview".toList
          = .ok ["-snapshot".toList, "-tag ".toList ++ ud.viewname,
              ud.viewdir]) := by
  constructor
  · intro hrem
    refine ⟨?_, ?_, ?_, ?_⟩
    · unfold ccaseOptions
      rw [hrem]
      rfl
    · unfold ccaseOptions
      rw [hrem]
      rfl
    · unfold ccaseOptions
      rw [hrem]
      rfl
    · intro hmem
      rcases List.mem_cons.1 hmem with hc | hmem
      · simp [serverOption, List.cons_append] at hc
      · rcases List.mem_cons.1 hmem with hc | hmem
        · simp [List.cons_append] at hc
        · rcases List.mem_cons.1 hmem with hc | hmem
          · exact viewdir_ne_snapshot h hc.symm
          · exact absurd hmem (List.not_mem_nil _)
  · intro hrem
    unfold ccaseOptions
    rw [hrem]
    rfl

/-- Witness for C9 at the remote sample (default FETCHCMD mentions
rcleartool) and the local sample (FETCHCMD_ccrc = "cleartool"). -/
theorem c9_witness :
    ccaseOptions sampleUD "rmview".toList
      = .ok [serverOption sampleUD, "-force".toList, sampleUD.viewdir]
    ∧ "-snapshot".toList
        ∉ [serverOption sampleUD, "-tag ".toList ++ sampleUD.viewname,
            sampleUD.viewdir]
    ∧ ccaseOptions sampleUDLocal "mkview".toList
      = .ok ["-snapshot".toList,
          "-tag ".toList ++ sampleUDLocal.viewname, sampleUDLocal.viewdir] :=
  ⟨((c9_option_order "cc.example.org".toList "/ccrc".toList sampleUrl
      sampleParm sampleD sampleUD rfl).1 (by decide)).2.1,
    ((c9_option_order "cc.example.org".toList "/ccrc".toList sampleUrl
      sampleParm sampleD sampleUD rfl).1 (by decide)).2.2.2,
    (c9_option_order "cc.example.org".toList "/ccrc".toList sampleUrl
      sampleParm sampleDLocal sampleUDLocal rfl).2 (by decide)⟩

/-- C10: a `clean` whose external steps succeed never fails, leaves the
view directory and the config spec file absent, and a second `clean` on
the resulting filesystem succeeds under any environment — the absent
view directory skips `rmview` and the absent config spec file is treated
as successful cleanup. -/
theorem c10_clean_twice (ud : UrlData) (env1 : CleanEnv) (fs : FileSys)
    (h1 : env1.netRmview = none) (h2 : env1.rmview = none) :
    exceptOk (clean ud env1 fs) = true
    ∧ ∀ fs1, clean ud env1 fs = .ok fs1 →
        fs1 ud.viewdir = false ∧ fs1 ud.configspecfile = false
        ∧ ∀ env2, exceptOk (clean ud env2 fs1) = true := by
  have hrv : remove_view ud env1 fs
      = .ok (if fs ud.viewdir then
          (fun p => if p = ud.viewdir then false else fs p) else fs) := by
    unfold remove_view
    by_cases hv : fs ud.viewdir
    · rw [hv]
      simp only [if_pos rfl]
      rw [h1, h2]
      simp [build_ccase_command, ccaseOptions]
    · rw [Bool.not_eq_true] at hv
      rw [hv]
      simp
  have hcl : clean ud env1 fs
      = .ok (bbUtilsRemove (if fs ud.viewdir then
          (fun p => if p = ud.viewdir then false else fs p) else fs)
          ud.configspecfile) := by
    unfold clean
    rw [hrv]
  constructor
  · rw [hcl]; rfl
  · intro fs1 hfs1
    rw [hcl] at hfs1
    have hfs1' : fs1 = bbUtilsRemove (if fs ud.viewdir then
        (fun p => if p = ud.viewdir then false else fs p) else fs)
        ud.configspecfile := (Except.ok.injEq _ _ ▸ hfs1).symm
    have hvd : fs1 ud.viewdir = false := by
      rw [hfs1']
      unfold bbUtilsRemove
      by_cases hq : ud.viewdir = ud.configspecfile
      · rw [if_pos hq]
      · rw [if_neg hq]
        by_cases hv : fs ud.viewdir
        · rw [if_pos hv]
          simp
        · rw [Bool.not_eq_true] at hv
          rw [if_neg (by rw [hv]; exact Bool.false_ne_true)]
          exact hv
    refine ⟨hvd, ?_, fun env2 => clean_ok_of_absent ud env2 fs1 hvd⟩
    rw [hfs1']
    unfold bbUtilsRemove
    simp

/-- Witness for C10: two consecutive `clean` calls on the sample view,
the second with the view directory and config spec file already gone and
an environment whose `rmview` would fail. -/
theorem c10_witness :
    exceptOk (clean sampleUD cleanOkEnv
      (fun q => decide (q = sampleUD.viewdir))) = true
    ∧ exceptOk (clean sampleUD cleanFailEnv
        (bbUtilsRemove (if (fun q => decide (q = sampleUD.viewdir))
            sampleUD.viewdir then
            (fun p => if p = sampleUD.viewdir then false
              else decide (p = sampleUD.viewdir))
            else (fun q => decide (q = sampleUD.viewdir)))
          sampleUD.configspecfile)) = true :=
  ⟨(c10_clean_twice sampleUD cleanOkEnv
      (fun q => decide (q = sampleUD.viewdir)) rfl rfl).1,
    ((c10_clean_twice sampleUD cleanOkEnv
      (fun q => decide (q = sampleUD.viewdir)) rfl rfl).2 _ rfl).2.2
      cleanFailEnv⟩
